import Mathlib

/-!
Verification of the time-of-use bucket classifier
(`src/time_of_use_calculator.py`).

The source computes `t = now.hour + now.minute / 60.0` in floating point;
since `minute / 60.0` for `minute ∈ [0, 59]` rounds to a double strictly
inside `[0, 1)` (exactly `0` only for `minute = 0`), every comparison of
`t` against the integer thresholds 6, 10, 14, 16, 21 gives the same
answer in floats as in exact rationals; we therefore embed `t` as a
rational number.
-/

namespace TimeOfUse

/-- A wall-clock instant, mirroring the fields of a Python `datetime`
that the program reads: `year`, `month`, `day`, `hour`, `minute`, and
the `weekday()` index (0 = Monday … 6 = Sunday). -/
structure Timestamp where
  year : Nat
  month : Nat
  day : Nat
  hour : Nat
  minute : Nat
  weekday : Nat
deriving DecidableEq, Repr

/-- Valid calendar field ranges for a timestamp. -/
def Timestamp.valid (now : Timestamp) : Prop :=
  1 ≤ now.month ∧ now.month ≤ 12 ∧ now.hour ≤ 23 ∧ now.minute ≤ 59 ∧ now.weekday ≤ 6

instance (now : Timestamp) : Decidable now.valid := by
  unfold Timestamp.valid; infer_instance

/-- `t = now.hour + now.minute / 60.0`: the current time in decimal hours
(line 27 of the source). -/
def Timestamp.t (now : Timestamp) : ℚ :=
  now.hour + now.minute / 60

/-- `is_holiday(now)`: membership of the timestamp's calendar date in the
holiday set supplied by the external `holidays` library for the
timestamp's year.  The library data is embedded as an explicit list of
`(year, month, day)` dates; a date absent from the data is simply not a
member, so the membership test yields `false` for it. -/
def is_holiday (usHolidays : List (Nat × Nat × Nat)) (now : Timestamp) : Bool :=
  decide ((now.year, now.month, now.day) ∈ usHolidays)

/-- The weekend/holiday branch of `get_tou_bucket` (lines 31–38). -/
def weekend_bucket (t : ℚ) : String :=
  if t < 14 then "Super Off-Peak (Weekend/Holiday)"
  else if t < 16 then "Off-Peak (Weekend/Holiday)"
  else if t < 21 then "On-Peak (Weekend/Holiday)"
  else "Off-Peak (Weekend/Holiday)"

/-- The weekday branch of `get_tou_bucket` (lines 39–52). -/
def weekday_bucket (t : ℚ) (month : Nat) : String :=
  if t < 6 then "Super Off-Peak (Weekday)"
  else if t < 16 then
    if (month = 3 ∨ month = 4) ∧ 10 ≤ t ∧ t < 14 then
      "Extra Off-Peak (Mar/Apr, Weekday)"
    else "Off-Peak (Weekday)"
  else if t < 21 then "On-Peak (Weekday)"
  else "Off-Peak (Weekday)"

/-- `get_tou_bucket(now)` (lines 10–52), with the holiday-oracle answer
`hol` made an explicit boolean argument: the source evaluates
`now.weekday() >= 5 or is_holiday(now)` and then runs one of the two
threshold tables on `t`. -/
def get_tou_bucket (now : Timestamp) (hol : Bool) : String :=
  if 5 ≤ now.weekday ∨ hol = true then weekend_bucket now.t
  else weekday_bucket now.t now.month

/-- `get_tou_bucket` exactly as called in the source, with the holiday
answer computed by `is_holiday` from the library data. -/
def get_tou_bucket_app (usHolidays : List (Nat × Nat × Nat)) (now : Timestamp) : String :=
  get_tou_bucket now (is_holiday usHolidays now)

/-- Theme settings: background color and emoji (`get_theme_for_bucket`). -/
structure Theme where
  bg_color : String
  emoji : String
deriving DecidableEq, Repr

/-- `needle` is a prefix of `hay` (character lists). -/
def isPrefixList : List Char → List Char → Bool
  | [], _ => true
  | _ :: _, [] => false
  | a :: as, b :: bs => a = b && isPrefixList as bs

/-- `needle` occurs as a contiguous substring of `hay`, the semantics of
Python's `needle in hay` on strings. -/
def hasSubstrList (needle : List Char) : List Char → Bool
  | [] => isPrefixList needle []
  | c :: cs => isPrefixList needle (c :: cs) || hasSubstrList needle cs

/-- `get_theme_for_bucket(bucket)` (lines 54–64): buckets whose label
contains "On-Peak" get the discouraging theme, all others the
encouraging theme. -/
def get_theme_for_bucket (bucket : String) : Theme :=
  if hasSubstrList "On-Peak".data bucket.data then
    { bg_color := "#f0e5d8", emoji := "🚫" }
  else
    { bg_color := "#e0f7fa", emoji := "✅" }

/-- The discouraging theme returned for On-Peak buckets. -/
def stop_theme : Theme := { bg_color := "#f0e5d8", emoji := "🚫" }

/-- The encouraging theme returned for all other buckets. -/
def check_theme : Theme := { bg_color := "#e0f7fa", emoji := "✅" }

/-- Every label `get_tou_bucket` can return. -/
def bucket_labels : List String :=
  ["Super Off-Peak (Weekend/Holiday)", "Off-Peak (Weekend/Holiday)",
   "On-Peak (Weekend/Holiday)",
   "Super Off-Peak (Weekday)", "Extra Off-Peak (Mar/Apr, Weekday)",
   "Off-Peak (Weekday)", "On-Peak (Weekday)"]

/-- The four guard conditions of the weekend/holiday table, in source
order, as decided booleans. -/
def weekend_conds (t : ℚ) : List Bool :=
  [decide (t < 14), decide (14 ≤ t ∧ t < 16), decide (16 ≤ t ∧ t < 21),
   decide (21 ≤ t)]

/-- The five guard conditions of the weekday table, in source order, as
decided booleans. -/
def weekday_conds (t : ℚ) (month : Nat) : List Bool :=
  [decide (t < 6),
   decide (6 ≤ t ∧ t < 16 ∧ ((month = 3 ∨ month = 4) ∧ 10 ≤ t ∧ t < 14)),
   decide (6 ≤ t ∧ t < 16 ∧ ¬((month = 3 ∨ month = 4) ∧ 10 ≤ t ∧ t < 14)),
   decide (16 ≤ t ∧ t < 21), decide (21 ≤ t)]

-- Arithmetic bridge: comparisons of `t` with integer thresholds reduce
-- to comparisons on the minute-of-day count.

lemma t_lt_iff (now : Timestamp) (c : Nat) :
    now.t < (c : ℚ) ↔ 60 * now.hour + now.minute < 60 * c := by
  unfold Timestamp.t
  rw [show (now.hour : ℚ) + now.minute / 60 = ((60 * now.hour + now.minute : ℕ) : ℚ) / 60 by
        push_cast; ring,
      div_lt_iff₀ (by norm_num : (0 : ℚ) < 60),
      show ((c : ℚ) * 60) = ((60 * c : ℕ) : ℚ) by push_cast; ring]
  exact Nat.cast_lt

lemma le_t_iff (now : Timestamp) (c : Nat) :
    (c : ℚ) ≤ now.t ↔ 60 * c ≤ 60 * now.hour + now.minute := by
  rw [← not_lt, ← not_lt, not_iff_not]
  exact t_lt_iff now c

-- Evaluation lemmas for the two branch tables.

lemma weekend_bucket_super (t : ℚ) (h : t < 14) :
    weekend_bucket t = "Super Off-Peak (Weekend/Holiday)" := by
  rw [weekend_bucket, if_pos h]

lemma weekend_bucket_off_afternoon (t : ℚ) (h1 : 14 ≤ t) (h2 : t < 16) :
    weekend_bucket t = "Off-Peak (Weekend/Holiday)" := by
  rw [weekend_bucket, if_neg (not_lt.2 h1), if_pos h2]

lemma weekend_bucket_on (t : ℚ) (h1 : 16 ≤ t) (h2 : t < 21) :
    weekend_bucket t = "On-Peak (Weekend/Holiday)" := by
  rw [weekend_bucket, if_neg (not_lt.2 (by linarith : (14 : ℚ) ≤ t)),
      if_neg (not_lt.2 h1), if_pos h2]

lemma weekend_bucket_off_evening (t : ℚ) (h : 21 ≤ t) :
    weekend_bucket t = "Off-Peak (Weekend/Holiday)" := by
  rw [weekend_bucket, if_neg (not_lt.2 (by linarith : (14 : ℚ) ≤ t)),
      if_neg (not_lt.2 (by linarith : (16 : ℚ) ≤ t)), if_neg (not_lt.2 h)]

lemma weekday_bucket_super (t : ℚ) (m : Nat) (h : t < 6) :
    weekday_bucket t m = "Super Off-Peak (Weekday)" := by
  rw [weekday_bucket, if_pos h]

lemma weekday_bucket_extra (t : ℚ) (m : Nat) (hm : m = 3 ∨ m = 4)
    (h1 : 10 ≤ t) (h2 : t < 14) :
    weekday_bucket t m = "Extra Off-Peak (Mar/Apr, Weekday)" := by
  rw [weekday_bucket, if_neg (not_lt.2 (by linarith : (6 : ℚ) ≤ t)),
      if_pos (by linarith : t < 16), if_pos ⟨hm, h1, h2⟩]

lemma weekday_bucket_off_day (t : ℚ) (m : Nat) (h1 : 6 ≤ t) (h2 : t < 16)
    (h3 : ¬((m = 3 ∨ m = 4) ∧ 10 ≤ t ∧ t < 14)) :
    weekday_bucket t m = "Off-Peak (Weekday)" := by
  rw [weekday_bucket, if_neg (not_lt.2 h1), if_pos h2, if_neg h3]

lemma weekday_bucket_on (t : ℚ) (m : Nat) (h1 : 16 ≤ t) (h2 : t < 21) :
    weekday_bucket t m = "On-Peak (Weekday)" := by
  rw [weekday_bucket, if_neg (not_lt.2 (by linarith : (6 : ℚ) ≤ t)),
      if_neg (not_lt.2 h1), if_pos h2]

lemma weekday_bucket_off_evening (t : ℚ) (m : Nat) (h : 21 ≤ t) :
    weekday_bucket t m = "Off-Peak (Weekday)" := by
  rw [weekday_bucket, if_neg (not_lt.2 (by linarith : (6 : ℚ) ≤ t)),
      if_neg (not_lt.2 (by linarith : (16 : ℚ) ≤ t)), if_neg (not_lt.2 h)]

-- Branch-selection lemmas for `get_tou_bucket`.

lemma get_tou_bucket_weekend (now : Timestamp) (hol : Bool)
    (h : 5 ≤ now.weekday ∨ hol = true) :
    get_tou_bucket now hol = weekend_bucket now.t := by
  rw [get_tou_bucket, if_pos h]

lemma get_tou_bucket_weekday (now : Timestamp) (hol : Bool)
    (h1 : now.weekday < 5) (h2 : hol = false) :
    get_tou_bucket now hol = weekday_bucket now.t now.month := by
  rw [get_tou_bucket, if_neg]
  rw [not_or]
  exact ⟨not_le.2 h1, by simp [h2]⟩

/-- No weekday-table label coincides with a weekend-table label: the
day-type qualifier differs. -/
lemma weekday_bucket_ne_weekend_bucket (t t' : ℚ) (m : Nat) :
    weekday_bucket t m ≠ weekend_bucket t' := by
  unfold weekday_bucket weekend_bucket
  split_ifs <;> simp

/-- `get_tou_bucket` only ever returns one of the seven labels. -/
lemma get_tou_bucket_mem_labels (now : Timestamp) (hol : Bool) :
    get_tou_bucket now hol ∈ bucket_labels := by
  unfold get_tou_bucket weekend_bucket weekday_bucket bucket_labels
  split_ifs <;> simp

/-- The weekend/holiday guard conditions hold for exactly one row, for
every rational `t`. -/
lemma weekend_conds_count (t : ℚ) : (weekend_conds t).count true = 1 := by
  unfold weekend_conds
  rcases lt_or_le t 14 with h1 | h1
  · simp [h1, not_le.2 h1, not_le.2 (show t < 16 by linarith),
      not_le.2 (show t < 21 by linarith), List.count_cons]
  · rcases lt_or_le t 16 with h2 | h2
    · simp [h1, h2, not_lt.2 h1, not_le.2 h2,
        not_le.2 (show t < 21 by linarith), List.count_cons]
    · rcases lt_or_le t 21 with h3 | h3
      · simp [h2, h3, not_lt.2 (show (14 : ℚ) ≤ t by linarith), not_lt.2 h2,
          not_le.2 h3, List.count_cons]
      · simp [h3, not_lt.2 (show (14 : ℚ) ≤ t by linarith),
          not_lt.2 (show (16 : ℚ) ≤ t by linarith), not_lt.2 h3, List.count_cons]

/-- The weekday guard conditions hold for exactly one row, for every
rational `t` and every month. -/
lemma weekday_conds_count (t : ℚ) (m : Nat) :
    (weekday_conds t m).count true = 1 := by
  unfold weekday_conds
  rcases lt_or_le t 6 with h1 | h1
  · simp [h1, not_le.2 h1, not_le.2 (show t < 16 by linarith),
      not_le.2 (show t < 21 by linarith), List.count_cons]
  · rcases lt_or_le t 16 with h2 | h2
    · by_cases hx : (m = 3 ∨ m = 4) ∧ 10 ≤ t ∧ t < 14
      · simp [h1, h2, hx, not_lt.2 h1, not_le.2 h2,
          not_le.2 (show t < 21 by linarith), List.count_cons]
      · simp [h1, h2, hx, not_lt.2 h1, not_le.2 h2,
          not_le.2 (show t < 21 by linarith), List.count_cons]
    · rcases lt_or_le t 21 with h3 | h3
      · simp [h2, h3, not_lt.2 (show (6 : ℚ) ≤ t by linarith), not_lt.2 h2,
          not_le.2 h3, List.count_cons]
      · simp [h3, not_lt.2 (show (6 : ℚ) ≤ t by linarith), not_lt.2 h2,
          not_lt.2 h3, List.count_cons]

/-- The weekday table returns the Extra Off-Peak label exactly when the
month is March or April and `10 ≤ t < 14`. -/
lemma weekday_bucket_extra_iff (t : ℚ) (m : Nat) :
    weekday_bucket t m = "Extra Off-Peak (Mar/Apr, Weekday)" ↔
      ((m = 3 ∨ m = 4) ∧ 10 ≤ t ∧ t < 14) := by
  unfold weekday_bucket
  split_ifs with h1 h2 h3 h4
  · simp only [show ("Super Off-Peak (Weekday)" =
        "Extra Off-Peak (Mar/Apr, Weekday)") ↔ False by simp, false_iff]
    rintro ⟨-, h10, -⟩; linarith
  · simp [h3]
  · simp only [show ("Off-Peak (Weekday)" =
        "Extra Off-Peak (Mar/Apr, Weekday)") ↔ False by simp, false_iff]
    exact h3
  · simp only [show ("On-Peak (Weekday)" =
        "Extra Off-Peak (Mar/Apr, Weekday)") ↔ False by simp, false_iff]
    rintro ⟨-, -, h14⟩
    rw [not_lt] at h2
    linarith
  · simp only [show ("Off-Peak (Weekday)" =
        "Extra Off-Peak (Mar/Apr, Weekday)") ↔ False by simp, false_iff]
    rintro ⟨-, -, h14⟩
    rw [not_lt] at h2
    linarith

/-- Claim C1: for every valid timestamp and every holiday answer,
`get_tou_bucket` returns exactly one of the seven bucket labels, and for
each day-type the threshold table partitions the day with no gaps or
overlaps: exactly one guard condition holds for the timestamp's `t`. -/
theorem classify_total_and_partition (now : Timestamp) (hol : Bool) (hv : now.valid) :
    get_tou_bucket now hol ∈ bucket_labels ∧
    (weekend_conds now.t).count true = 1 ∧
    (weekday_conds now.t now.month).count true = 1 :=
  ⟨get_tou_bucket_mem_labels now hol, weekend_conds_count now.t,
   weekday_conds_count now.t now.month⟩

/-- Witness for C1 at Tuesday 2025-07-01 13:00 flagged as a holiday. -/
theorem classify_total_and_partition_witness :
    Timestamp.valid ⟨2025, 7, 1, 13, 0, 1⟩ ∧
    (get_tou_bucket ⟨2025, 7, 1, 13, 0, 1⟩ true ∈ bucket_labels ∧
     (weekend_conds (Timestamp.t ⟨2025, 7, 1, 13, 0, 1⟩)).count true = 1 ∧
     (weekday_conds (Timestamp.t ⟨2025, 7, 1, 13, 0, 1⟩) 7).count true = 1) :=
  ⟨by decide, classify_total_and_partition ⟨2025, 7, 1, 13, 0, 1⟩ true (by decide)⟩

/-- Claim C2: `get_tou_bucket` uses the weekend/holiday table exactly when
the weekday is Saturday or Sunday or the holiday answer is true, and a
Tuesday flagged as a holiday at 13:00 is classified Super Off-Peak with
the Weekend/Holiday qualifier. -/
theorem classify_daytype_iff (now : Timestamp) (hol : Bool) (hv : now.valid) :
    (get_tou_bucket now hol = weekend_bucket now.t ↔
      (now.weekday = 5 ∨ now.weekday = 6 ∨ hol = true)) ∧
    get_tou_bucket ⟨2025, 11, 25, 13, 0, 1⟩ true = "Super Off-Peak (Weekend/Holiday)" := by
  constructor
  · constructor
    · intro he
      by_contra hc
      push_neg at hc
      obtain ⟨h5, h6, hf⟩ := hc
      have hd6 : now.weekday ≤ 6 := hv.2.2.2.2
      have hw : now.weekday < 5 := by omega
      have holf : hol = false := by
        cases hol
        · rfl
        · exact absurd rfl hf
      rw [get_tou_bucket_weekday now hol hw holf] at he
      exact weekday_bucket_ne_weekend_bucket now.t now.t now.month he
    · intro h
      apply get_tou_bucket_weekend
      rcases h with h | h | h
      · exact Or.inl (by omega)
      · exact Or.inl (by omega)
      · exact Or.inr h
  · rw [get_tou_bucket_weekend _ _ (Or.inr rfl)]
    apply weekend_bucket_super
    norm_num [Timestamp.t]

/-- Witness for C2 at Saturday 2025-07-05 13:00 with no holiday. -/
theorem classify_daytype_iff_witness :
    Timestamp.valid ⟨2025, 7, 5, 13, 0, 5⟩ ∧
    ((get_tou_bucket ⟨2025, 7, 5, 13, 0, 5⟩ false =
        weekend_bucket (Timestamp.t ⟨2025, 7, 5, 13, 0, 5⟩) ↔
      ((5 : Nat) = 5 ∨ (5 : Nat) = 6 ∨ false = true)) ∧
     get_tou_bucket ⟨2025, 11, 25, 13, 0, 1⟩ true = "Super Off-Peak (Weekend/Holiday)") :=
  ⟨by decide, classify_daytype_iff ⟨2025, 7, 5, 13, 0, 5⟩ false (by decide)⟩

/-- Claim C3: on a weekday all boundaries are half-open with the boundary
instant in the upper interval: 5:59 is Super Off-Peak, 6:00 Off-Peak,
15:59 (outside March/April) Off-Peak, 16:00 On-Peak, 20:59 On-Peak and
21:00 Off-Peak. -/
theorem weekday_boundaries (now : Timestamp) (hv : now.valid) (hw : now.weekday < 5)
    (hm : now.month ≠ 3 ∧ now.month ≠ 4) :
    get_tou_bucket { now with hour := 5, minute := 59 } false = "Super Off-Peak (Weekday)" ∧
    get_tou_bucket { now with hour := 6, minute := 0 } false = "Off-Peak (Weekday)" ∧
    get_tou_bucket { now with hour := 15, minute := 59 } false = "Off-Peak (Weekday)" ∧
    get_tou_bucket { now with hour := 16, minute := 0 } false = "On-Peak (Weekday)" ∧
    get_tou_bucket { now with hour := 20, minute := 59 } false = "On-Peak (Weekday)" ∧
    get_tou_bucket { now with hour := 21, minute := 0 } false = "Off-Peak (Weekday)" := by
  refine ⟨?_, ?_, ?_, ?_, ?_, ?_⟩
  · rw [get_tou_bucket_weekday { now with hour := 5, minute := 59 } false hw rfl]
    apply weekday_bucket_super
    norm_num [Timestamp.t]
  · rw [get_tou_bucket_weekday { now with hour := 6, minute := 0 } false hw rfl]
    apply weekday_bucket_off_day
    · norm_num [Timestamp.t]
    · norm_num [Timestamp.t]
    · rintro ⟨-, h10, -⟩
      norm_num [Timestamp.t] at h10
  · rw [get_tou_bucket_weekday { now with hour := 15, minute := 59 } false hw rfl]
    apply weekday_bucket_off_day
    · norm_num [Timestamp.t]
    · norm_num [Timestamp.t]
    · rintro ⟨-, -, h14⟩
      norm_num [Timestamp.t] at h14
  · rw [get_tou_bucket_weekday { now with hour := 16, minute := 0 } false hw rfl]
    apply weekday_bucket_on <;> norm_num [Timestamp.t]
  · rw [get_tou_bucket_weekday { now with hour := 20, minute := 59 } false hw rfl]
    apply weekday_bucket_on <;> norm_num [Timestamp.t]
  · rw [get_tou_bucket_weekday { now with hour := 21, minute := 0 } false hw rfl]
    apply weekday_bucket_off_evening
    norm_num [Timestamp.t]

/-- Witness for C3 on Tuesday 2025-11-25 (weekday 1, month 11). -/
theorem weekday_boundaries_witness :
    (Timestamp.valid ⟨2025, 11, 25, 0, 0, 1⟩ ∧ (1 : Nat) < 5 ∧
      ((11 : Nat) ≠ 3 ∧ (11 : Nat) ≠ 4)) ∧
    (get_tou_bucket ⟨2025, 11, 25, 5, 59, 1⟩ false = "Super Off-Peak (Weekday)" ∧
     get_tou_bucket ⟨2025, 11, 25, 6, 0, 1⟩ false = "Off-Peak (Weekday)" ∧
     get_tou_bucket ⟨2025, 11, 25, 15, 59, 1⟩ false = "Off-Peak (Weekday)" ∧
     get_tou_bucket ⟨2025, 11, 25, 16, 0, 1⟩ false = "On-Peak (Weekday)" ∧
     get_tou_bucket ⟨2025, 11, 25, 20, 59, 1⟩ false = "On-Peak (Weekday)" ∧
     get_tou_bucket ⟨2025, 11, 25, 21, 0, 1⟩ false = "Off-Peak (Weekday)") :=
  ⟨⟨by decide, by decide, by decide⟩,
   weekday_boundaries ⟨2025, 11, 25, 0, 0, 1⟩ (by decide) (by decide) (by decide)⟩

/-- Claim C4: on a weekday with holiday answer false, the result is Extra
Off-Peak exactly when the month is March or April and `10 ≤ t < 14`; in
particular a March Wednesday at 10:00 is Extra Off-Peak, the same
Wednesday at 9:59 and at 14:00 is Off-Peak, and a January Wednesday at
10:00 is Off-Peak. -/
theorem extra_offpeak_iff (now : Timestamp) (hv : now.valid) (hw : now.weekday < 5) :
    (get_tou_bucket now false = "Extra Off-Peak (Mar/Apr, Weekday)" ↔
      ((now.month = 3 ∨ now.month = 4) ∧ 10 ≤ now.t ∧ now.t < 14)) ∧
    get_tou_bucket ⟨2025, 3, 12, 10, 0, 2⟩ false = "Extra Off-Peak (Mar/Apr, Weekday)" ∧
    get_tou_bucket ⟨2025, 3, 12, 9, 59, 2⟩ false = "Off-Peak (Weekday)" ∧
    get_tou_bucket ⟨2025, 3, 12, 14, 0, 2⟩ false = "Off-Peak (Weekday)" ∧
    get_tou_bucket ⟨2025, 1, 15, 10, 0, 2⟩ false = "Off-Peak (Weekday)" := by
  refine ⟨?_, ?_, ?_, ?_, ?_⟩
  · rw [get_tou_bucket_weekday now false hw rfl]
    exact weekday_bucket_extra_iff now.t now.month
  · norm_num [get_tou_bucket, weekday_bucket, Timestamp.t]
  · norm_num [get_tou_bucket, weekday_bucket, Timestamp.t]
  · norm_num [get_tou_bucket, weekday_bucket, Timestamp.t]
  · norm_num [get_tou_bucket, weekday_bucket, Timestamp.t]

/-- Witness for C4 on Wednesday 2025-05-14 11:00 (month 5). -/
theorem extra_offpeak_iff_witness :
    (Timestamp.valid ⟨2025, 5, 14, 11, 0, 2⟩ ∧ (2 : Nat) < 5) ∧
    ((get_tou_bucket ⟨2025, 5, 14, 11, 0, 2⟩ false = "Extra Off-Peak (Mar/Apr, Weekday)" ↔
        (((5 : Nat) = 3 ∨ (5 : Nat) = 4) ∧ 10 ≤ Timestamp.t ⟨2025, 5, 14, 11, 0, 2⟩ ∧
          Timestamp.t ⟨2025, 5, 14, 11, 0, 2⟩ < 14)) ∧
     get_tou_bucket ⟨2025, 3, 12, 10, 0, 2⟩ false = "Extra Off-Peak (Mar/Apr, Weekday)" ∧
     get_tou_bucket ⟨2025, 3, 12, 9, 59, 2⟩ false = "Off-Peak (Weekday)" ∧
     get_tou_bucket ⟨2025, 3, 12, 14, 0, 2⟩ false = "Off-Peak (Weekday)" ∧
     get_tou_bucket ⟨2025, 1, 15, 10, 0, 2⟩ false = "Off-Peak (Weekday)") :=
  ⟨⟨by decide, by decide⟩, extra_offpeak_iff ⟨2025, 5, 14, 11, 0, 2⟩ (by decide) (by decide)⟩

/-- Claim C5: on weekend/holiday day-types the table is `t < 14` Super
Off-Peak, `14 ≤ t < 16` Off-Peak, `16 ≤ t < 21` On-Peak, `21 ≤ t`
Off-Peak, with half-open boundaries: Saturday 13:59 is Super Off-Peak,
14:00 Off-Peak, 15:59 Off-Peak, 16:00 On-Peak. -/
theorem weekend_table_thresholds (now : Timestamp) (hol : Bool) (hv : now.valid)
    (hd : 5 ≤ now.weekday ∨ hol = true) :
    (now.t < 14 → get_tou_bucket now hol = "Super Off-Peak (Weekend/Holiday)") ∧
    (14 ≤ now.t → now.t < 16 → get_tou_bucket now hol = "Off-Peak (Weekend/Holiday)") ∧
    (16 ≤ now.t → now.t < 21 → get_tou_bucket now hol = "On-Peak (Weekend/Holiday)") ∧
    (21 ≤ now.t → get_tou_bucket now hol = "Off-Peak (Weekend/Holiday)") ∧
    get_tou_bucket ⟨2025, 7, 5, 13, 59, 5⟩ false = "Super Off-Peak (Weekend/Holiday)" ∧
    get_tou_bucket ⟨2025, 7, 5, 14, 0, 5⟩ false = "Off-Peak (Weekend/Holiday)" ∧
    get_tou_bucket ⟨2025, 7, 5, 15, 59, 5⟩ false = "Off-Peak (Weekend/Holiday)" ∧
    get_tou_bucket ⟨2025, 7, 5, 16, 0, 5⟩ false = "On-Peak (Weekend/Holiday)" := by
  refine ⟨?_, ?_, ?_, ?_, ?_, ?_, ?_, ?_⟩
  · intro h
    rw [get_tou_bucket_weekend now hol hd]
    exact weekend_bucket_super now.t h
  · intro h1 h2
    rw [get_tou_bucket_weekend now hol hd]
    exact weekend_bucket_off_afternoon now.t h1 h2
  · intro h1 h2
    rw [get_tou_bucket_weekend now hol hd]
    exact weekend_bucket_on now.t h1 h2
  · intro h
    rw [get_tou_bucket_weekend now hol hd]
    exact weekend_bucket_off_evening now.t h
  · norm_num [get_tou_bucket, weekend_bucket, Timestamp.t]
  · norm_num [get_tou_bucket, weekend_bucket, Timestamp.t]
  · norm_num [get_tou_bucket, weekend_bucket, Timestamp.t]
  · norm_num [get_tou_bucket, weekend_bucket, Timestamp.t]

/-- Witness for C5 at Sunday 2025-07-06 10:00. -/
theorem weekend_table_thresholds_witness :
    (Timestamp.valid ⟨2025, 7, 6, 10, 0, 6⟩ ∧ ((5 : Nat) ≤ 6 ∨ false = true)) ∧
    ((Timestamp.t ⟨2025, 7, 6, 10, 0, 6⟩ < 14 →
        get_tou_bucket ⟨2025, 7, 6, 10, 0, 6⟩ false = "Super Off-Peak (Weekend/Holiday)") ∧
     (14 ≤ Timestamp.t ⟨2025, 7, 6, 10, 0, 6⟩ → Timestamp.t ⟨2025, 7, 6, 10, 0, 6⟩ < 16 →
        get_tou_bucket ⟨2025, 7, 6, 10, 0, 6⟩ false = "Off-Peak (Weekend/Holiday)") ∧
     (16 ≤ Timestamp.t ⟨2025, 7, 6, 10, 0, 6⟩ → Timestamp.t ⟨2025, 7, 6, 10, 0, 6⟩ < 21 →
        get_tou_bucket ⟨2025, 7, 6, 10, 0, 6⟩ false = "On-Peak (Weekend/Holiday)") ∧
     (21 ≤ Timestamp.t ⟨2025, 7, 6, 10, 0, 6⟩ →
        get_tou_bucket ⟨2025, 7, 6, 10, 0, 6⟩ false = "Off-Peak (Weekend/Holiday)") ∧
     get_tou_bucket ⟨2025, 7, 5, 13, 59, 5⟩ false = "Super Off-Peak (Weekend/Holiday)" ∧
     get_tou_bucket ⟨2025, 7, 5, 14, 0, 5⟩ false = "Off-Peak (Weekend/Holiday)" ∧
     get_tou_bucket ⟨2025, 7, 5, 15, 59, 5⟩ false = "Off-Peak (Weekend/Holiday)" ∧
     get_tou_bucket ⟨2025, 7, 5, 16, 0, 5⟩ false = "On-Peak (Weekend/Holiday)") :=
  ⟨⟨by decide, by decide⟩,
   weekend_table_thresholds ⟨2025, 7, 6, 10, 0, 6⟩ false (by decide) (Or.inl (by decide))⟩

/-- Claim C6: for every label the classifier can return, the theme is the
discouraging one (muted color, stop icon) exactly when the bucket is an
On-Peak bucket, and every bucket maps to one of the two fixed themes. -/
theorem theme_onpeak_iff (now : Timestamp) (hol : Bool) :
    (get_theme_for_bucket (get_tou_bucket now hol) = stop_theme ↔
      (get_tou_bucket now hol = "On-Peak (Weekday)" ∨
       get_tou_bucket now hol = "On-Peak (Weekend/Holiday)")) ∧
    (get_theme_for_bucket (get_tou_bucket now hol) = stop_theme ∨
     get_theme_for_bucket (get_tou_bucket now hol) = check_theme) := by
  have hmem := get_tou_bucket_mem_labels now hol
  simp only [bucket_labels, List.mem_cons, List.not_mem_nil, or_false] at hmem
  rcases hmem with h | h | h | h | h | h | h <;> rw [h] <;> exact ⟨by decide, by decide⟩

/-- Claim C7: a date missing from the holiday data yields the safe default
`false` from the membership test, so weekday logic applies. -/
theorem holiday_default_weekday (usHolidays : List (Nat × Nat × Nat)) (now : Timestamp)
    (hmiss : (now.year, now.month, now.day) ∉ usHolidays) (hw : now.weekday < 5) :
    is_holiday usHolidays now = false ∧
    get_tou_bucket_app usHolidays now = weekday_bucket now.t now.month := by
  have hf : is_holiday usHolidays now = false := by
    simp [is_holiday, hmiss]
  refine ⟨hf, ?_⟩
  rw [get_tou_bucket_app, hf, get_tou_bucket_weekday now false hw rfl]

/-- Witness for C7: 2025-03-12 is absent from a two-date holiday list. -/
theorem holiday_default_weekday_witness :
    (((2025 : Nat), (3 : Nat), (12 : Nat)) ∉
        [((2025 : Nat), (1 : Nat), (1 : Nat)), (2025, 7, 4)] ∧ (2 : Nat) < 5) ∧
    (is_holiday [(2025, 1, 1), (2025, 7, 4)] ⟨2025, 3, 12, 10, 0, 2⟩ = false ∧
     get_tou_bucket_app [(2025, 1, 1), (2025, 7, 4)] ⟨2025, 3, 12, 10, 0, 2⟩ =
       weekday_bucket (Timestamp.t ⟨2025, 3, 12, 10, 0, 2⟩) 3) :=
  ⟨⟨by decide, by decide⟩,
   holiday_default_weekday [(2025, 1, 1), (2025, 7, 4)] ⟨2025, 3, 12, 10, 0, 2⟩
     (by decide) (by decide)⟩

/-- Claim C8: the classification is deterministic and stateless — it
depends only on the hour, minute, weekday and month fields it reads and
on the holiday answer, so two runs on the same inputs agree. -/
theorem classify_deterministic (a b : Timestamp) (hol : Bool)
    (hh : a.hour = b.hour) (hmin : a.minute = b.minute)
    (hw : a.weekday = b.weekday) (hmo : a.month = b.month) :
    get_tou_bucket a hol = get_tou_bucket b hol := by
  unfold get_tou_bucket weekend_bucket weekday_bucket Timestamp.t
  rw [hh, hmin, hw, hmo]

/-- Witness for C8: two instants a year and a week apart with the same
hour, minute, weekday and month classify identically. -/
theorem classify_deterministic_witness :
    ((12 : Nat) = 12 ∧ (30 : Nat) = 30 ∧ (2 : Nat) = 2 ∧ (5 : Nat) = 5) ∧
    get_tou_bucket ⟨2024, 5, 1, 12, 30, 2⟩ true = get_tou_bucket ⟨2025, 5, 7, 12, 30, 2⟩ true :=
  ⟨⟨rfl, rfl, rfl, rfl⟩,
   classify_deterministic ⟨2024, 5, 1, 12, 30, 2⟩ ⟨2025, 5, 7, 12, 30, 2⟩ true
     rfl rfl rfl rfl⟩

/-- Claim C9: on a Saturday or Sunday the holiday answer has no influence
on the returned bucket. -/
theorem weekend_ignores_holiday_flag (now : Timestamp)
    (hwkd : now.weekday = 5 ∨ now.weekday = 6) (h1 h2 : Bool) :
    get_tou_bucket now h1 = get_tou_bucket now h2 := by
  have h5 : 5 ≤ now.weekday := by rcases hwkd with h | h <;> omega
  rw [get_tou_bucket_weekend now h1 (Or.inl h5), get_tou_bucket_weekend now h2 (Or.inl h5)]

/-- Witness for C9 at Saturday 2025-07-05 10:30 with the two holiday
answers. -/
theorem weekend_ignores_holiday_flag_witness :
    ((5 : Nat) = 5 ∨ (5 : Nat) = 6) ∧
    get_tou_bucket ⟨2025, 7, 5, 10, 30, 5⟩ true = get_tou_bucket ⟨2025, 7, 5, 10, 30, 5⟩ false :=
  ⟨Or.inl rfl,
   weekend_ignores_holiday_flag ⟨2025, 7, 5, 10, 30, 5⟩ (Or.inl rfl) true false⟩

/-- Claim C10: for `t ≥ 16` the weekday and weekend/holiday tables agree
up to the day-type qualifier: `16 ≤ t < 21` is On-Peak and `t ≥ 21` is
Off-Peak under both, so the day-type only affects earlier hours. -/
theorem evening_tables_agree (t : ℚ) (m : Nat) (h16 : 16 ≤ t) :
    (t < 21 → weekday_bucket t m = "On-Peak (Weekday)" ∧
      weekend_bucket t = "On-Peak (Weekend/Holiday)") ∧
    (21 ≤ t → weekday_bucket t m = "Off-Peak (Weekday)" ∧
      weekend_bucket t = "Off-Peak (Weekend/Holiday)") := by
  constructor
  · intro h21
    exact ⟨weekday_bucket_on t m h16 h21, weekend_bucket_on t h16 h21⟩
  · intro h21
    exact ⟨weekday_bucket_off_evening t m h21, weekend_bucket_off_evening t h21⟩

/-- Witness for C10 at `t = 16`, month 1. -/
theorem evening_tables_agree_witness :
    (16 : ℚ) ≤ 16 ∧
    (((16 : ℚ) < 21 → weekday_bucket 16 1 = "On-Peak (Weekday)" ∧
        weekend_bucket 16 = "On-Peak (Weekend/Holiday)") ∧
     ((21 : ℚ) ≤ 16 → weekday_bucket 16 1 = "Off-Peak (Weekday)" ∧
        weekend_bucket 16 = "Off-Peak (Weekend/Holiday)")) :=
  ⟨by decide, evening_tables_agree 16 1 (by decide)⟩

end TimeOfUse
